import Mathlib

/-!
Shallow embedding of the Local Judge Execution Engine of `cses_local`
(files `src/cses_local/submit.py` and `src/cses_local/preprocess.py`).

Conventions of the embedding:
* Python floats (time/memory limits and samples) are modelled as `ℚ`;
  the code only compares them, so no floating-point rounding is relevant
  to the claims below.
* Python exit codes are `ℤ`.  A variable of Python type `int` that can in
  fact hold `None` at runtime (the `rcode` returned by `_create_process`
  on the kill path) is modelled as `Option ℤ`; Python's `None != 0` is
  `True`, which the embedding mirrors as `rcode ≠ some 0`.
* Fallible Python code (functions that can raise) is modelled with
  `Except String`; the error string names the Python exception.
-/

/-! ## Constants from `submit.py` -/

def _MEGABYTE : ℕ := 1024 * 1024

def _OUTPUT_LIMIT : ℕ := 500 * _MEGABYTE

def _OLE : String := "OUTPUT LIMIT EXCEEDED"

def _TLE : String := "TIME LIMIT EXCEEDED"

def _MLE : String := "MEMORY LIMIT EXCEEDED"

def _RTE : String := "RUNTIME ERROR"

def _WA : String := "WRONG ANSWER"

def _A : String := "ACCEPTED"

/-- The closed verdict set of the engine (§4.2 / glossary). -/
def verdictSet : List String := [_A, _WA, _TLE, _MLE, _RTE, _OLE]

/-! ## Python `str.split()` (no arguments)

`str.split()` splits on runs of whitespace and discards empty fields.
We model the ASCII whitespace characters Python recognises. -/

def pyIsSpace (c : Char) : Bool :=
  c == ' ' || c == '\t' || c == '\n' || c == '\x0d' || c == '\x0b' || c == '\x0c'

/-- Worker for `pySplit`: `cur` is the current token, reversed. -/
def splitWsAux : List Char → List Char → List String
  | [], [] => []
  | [], cur => [String.mk cur.reverse]
  | c :: rest, cur =>
    if pyIsSpace c then
      match cur with
      | [] => splitWsAux rest []
      | _ => String.mk cur.reverse :: splitWsAux rest []
    else
      splitWsAux rest (c :: cur)

/-- Python `s.split()` with no separator argument. -/
def pySplit (s : String) : List String :=
  splitWsAux s.data []

/-- Size in bytes of the spooled output file (`os.fstat(...).st_size` of a
text-mode temporary file holding `s`; POSIX, no newline translation). -/
def outputSize (s : String) : ℕ :=
  s.utf8ByteSize

/-! ## `_get_verdict` (submit.py lines 134–173) -/

/-- Embedding of `_get_verdict`.  The output file is represented by its
full text content `output`; `os.fstat(...).st_size` is its byte size and
`output_file.read()` after the rewind is the text itself. -/
def _get_verdict (time_limit time_executed memory_limit memory_usage : ℚ)
    (rcode : Option ℤ) (output expected : String) : String :=
  if memory_usage > memory_limit then _MLE
  else if rcode ≠ some 0 then _RTE
  else if time_executed > time_limit then _TLE
  else if outputSize output > _OUTPUT_LIMIT then _OLE
  else if pySplit expected ≠ pySplit output then _WA
  else _A

/-! ## `_create_process` (submit.py lines 176–237)

The child process and the clock are external to the program; the embedding
represents everything `_create_process` observes about them as an
environment `ProcEnv`.  One loop iteration samples, in program order:
`subproc.poll()`, `proc.memory_info().rss` (already converted to MB by
`to_mb`), `time.perf_counter() - time_start`, and the output file size.
Writing the test input to stdin (lines 200–205) has no effect on the
returned triple — a `BrokenPipeError`/`OSError` there is swallowed — so it
does not appear in the environment. -/

/-- One iteration's observations. `rssMB = none` models
`psutil.NoSuchProcess` raised by `proc.memory_info()`. -/
structure Obs where
  poll : Option ℤ
  rssMB : Option ℚ
  elapsed : ℚ
  outSize : ℕ
deriving DecidableEq, Repr

/-- Everything `_create_process` can observe about one child process. -/
structure ProcEnv where
  /-- Value `false` models `psutil.Process(subproc.pid)` raising `NoSuchProcess`
  (line 210). -/
  spawnLookup : Bool
  /-- The sample taken at line 217, before the loop; `none` models
  `NoSuchProcess` raised there. -/
  initRssMB : Option ℚ
  /-- The per-iteration observations of the polling loop. -/
  obs : List Obs
  /-- Result of `subproc.wait()`, used on the exception paths
  (lines 211 and 226). -/
  waitCode : ℤ
  /-- Result of `subproc.poll()` after the loop (line 228). -/
  afterPoll : Option ℤ
  /-- Teardown result when the process is still running: `some c` if
  `proc.wait(timeout=0.01)` returned exit code `c`; `none` if it raised
  `TimeoutExpired` (the process is then killed) or `NoSuchProcess` —
  on those paths `rcode` stays Python `None`. -/
  termWait : Option ℤ
deriving DecidableEq, Repr

/-- How the polling loop of lines 218–224 ended. -/
inductive LoopOut where
  /-- The `while` condition became false; carries the final
  `pmmusage` and `time_poll`. -/
  | normal (pmm timePoll : ℚ)
  /-- Case where `psutil.NoSuchProcess` escaped an iteration's `memory_info()`. -/
  | raised (pmm timePoll : ℚ)
deriving DecidableEq, Repr

/-- The polling loop (lines 218–224).  The walrus assignments make
`pmmusage` update only when `poll()` returned `None`, and `time_poll`
update only when the memory check also passed; the embedding mirrors that
short-circuit order.  Returns `none` if the observation list is exhausted
while the loop would still be running (the model's fuel). -/
def superviseLoop (mem_limit time_limit : ℚ) :
    List Obs → ℚ → ℚ → Option LoopOut
  | [], _, _ => none
  | o :: rest, pmm, timePoll =>
    match o.poll with
    | some _ => some (.normal pmm timePoll)
    | none =>
      match o.rssMB with
      | none => some (.raised pmm timePoll)
      | some r =>
        let pmm' := max pmm r
        if ¬ pmm' < mem_limit then some (.normal pmm' timePoll)
        else
          let timePoll' := o.elapsed
          if ¬ timePoll' < time_limit then some (.normal pmm' timePoll')
          else if ¬ o.outSize < _OUTPUT_LIMIT then some (.normal pmm' timePoll')
          else superviseLoop mem_limit time_limit rest pmm' timePoll'

/-- Embedding of `_create_process`: returns `(pmmusage, time_poll, rcode)`.
`rcode : Option ℤ` because the teardown can leave Python's `rcode = None`
(kill path).  The outer `none` only flags an under-supplied environment. -/
def _create_process (mem_limit time_limit : ℚ) (env : ProcEnv) :
    Option (ℚ × ℚ × Option ℤ) :=
  if ¬ env.spawnLookup then some (0, 0, some env.waitCode)
  else
    match env.initRssMB with
    | none => some (0, 0, some env.waitCode)
    | some r0 =>
      match superviseLoop mem_limit time_limit env.obs r0 0 with
      | none => none
      | some (.raised pmm timePoll) => some (pmm, timePoll, some env.waitCode)
      | some (.normal pmm timePoll) =>
        match env.afterPoll with
        | some c => some (pmm, timePoll, some c)
        | none => some (pmm, timePoll, env.termWait)

/-- One test case of `_run`'s loop body: supervise the process, then derive
the verdict from the returned triple, the spooled output text and the
expected output (submit.py lines 115–128). -/
def judgeTest (mem_limit time_limit : ℚ) (env : ProcEnv)
    (output expected : String) : Option String :=
  (_create_process mem_limit time_limit env).map
    (fun r => _get_verdict time_limit r.2.1 mem_limit r.1 r.2.2 output expected)

/-! ## `_extract_test_cases` (submit.py lines 240–262)

An archive member is modelled by the three pieces of it the code uses:
`Path(member).stem`, `Path(member).suffix` and the decoded text
`archive.read(member).decode("utf-8")`.  The archive itself is the ordered
`namelist()`; `none` models a zip path that does not exist on disk. -/

def _TESTCASE_INPUT : String := ".in"

def _TESTCASE_OUTPUT : String := ".out"

/-- One member of a problem's zip archive. -/
structure Member where
  stem : String
  suffix : String
  text : String
deriving DecidableEq, Repr

/-- A test-case dictionary: the `".in"` / `".out"` keys of the
`Dict[str, str]` entries built by `_extract_test_cases`. -/
structure Testcase where
  inp : Option String
  outp : Option String
deriving DecidableEq, Repr

/-- Assignment `testcases[i][ext] = data` on one dictionary, for
`ext ∈ {".in", ".out"}`. -/
def setTC (tc : Testcase) (ext : String) (v : String) : Testcase :=
  if ext = _TESTCASE_INPUT then { tc with inp := some v }
  else if ext = _TESTCASE_OUTPUT then { tc with outp := some v }
  else tc

/-- Digit accumulator for `pyInt`: `none` on the first non-digit. -/
def pyIntDigits : List Char → ℕ → Option ℕ
  | [], acc => some acc
  | c :: rest, acc =>
    if c.isDigit then pyIntDigits rest (acc * 10 + (c.toNat - 48))
    else none

/-- Python `int(s)` (raises `ValueError`, i.e. `none`, on non-numeric
text).  Surrounding whitespace, a leading `+` and digit-group underscores,
which Python would also accept, do not occur in archive member stems and
are not modelled. -/
def pyInt (s : String) : Option ℤ :=
  match s.data with
  | [] => none
  | '-' :: rest =>
    if rest.isEmpty then none
    else (pyIntDigits rest 0).map (fun n => -(n : ℤ))
  | l => (pyIntDigits l 0).map (fun n => (n : ℤ))

/-- Python list element assignment `l[i] = f l[i]` with Python's index
semantics: a negative index wraps once by the length; an index out of
range after that raises `IndexError` (`none`). -/
def pyListSet {α : Type} (l : List α) (i : ℤ) (f : α → α) : Option (List α) :=
  let j : ℤ := if i < 0 then i + l.length else i
  if j < 0 then none
  else
    match l.get? j.toNat with
    | some a => some (l.set j.toNat (f a))
    | none => none

/-- The member loop of `_extract_test_cases` (lines 254–261): members
whose extension is neither `".in"` nor `".out"` are skipped; every other
member is bucketed at index `int(stem) - 1`.  `ValueError` / `IndexError`
escape as exceptions. -/
def extractLoop : List Member → List Testcase → Except String (List Testcase)
  | [], testcases => .ok testcases
  | m :: rest, testcases =>
    if m.suffix ≠ _TESTCASE_INPUT ∧ m.suffix ≠ _TESTCASE_OUTPUT then
      extractLoop rest testcases
    else
      match pyInt m.stem with
      | none => .error "ValueError"
      | some n =>
        match pyListSet testcases (n - 1) (fun tc => setTC tc m.suffix m.text) with
        | none => .error "IndexError"
        | some testcases' => extractLoop rest testcases'

/-- Embedding of `_extract_test_cases`: `archive = none` models a missing
zip file (`return None`); otherwise the result list is pre-sized to
`len(namelist) // 2` empty dictionaries and filled by the member loop. -/
def _extract_test_cases (archive : Option (List Member)) :
    Except String (Option (List Testcase)) :=
  match archive with
  | none => .ok none
  | some namelist =>
    (extractLoop namelist (List.replicate (namelist.length / 2) ⟨none, none⟩)).map some

/-! ## `_run` (submit.py lines 93–131)

`_run` extracts the test cases, builds the child argv, then supervises one
process per test case.  What one supervision observes is abstracted by a
`TestOutcome` per test ordinal: either the triple `_create_process`
returned together with the text the child left in the spooled output file,
or an uncaught exception raised while supervising that test (e.g. a
`KeyError` from `test_case[".in"]` inside `_create_process`, or any
`psutil`/`os` error not caught there). -/

/-- What supervising one test case produced. -/
structure TestRunObs where
  pmm : ℚ
  timePoll : ℚ
  rcode : Option ℤ
  output : String
deriving DecidableEq, Repr

/-- Outcome of supervising one test case: observations, or an uncaught
exception. -/
abbrev TestOutcome : Type := Except String TestRunObs

/-- A result row (`Dict[str, str]`) of the `TestResults` list.  `_run`
never constructs one — line 129 of the source is a bare `# TODO:` — so the
row type is only ever inhabited by other (deprecated) code. -/
abbrev TestResult : Type := List (String × String)

/-- The per-test loop of `_run` (lines 115–130).  `k` counts the child
processes spawned so far (one `Popen` per consumed outcome); the loop
keeps `results` empty because nothing is ever appended to it.  The
expected output is looked up as `test_case[".out"]` (line 127), which
raises `KeyError` on an entry with no `".out"` member. -/
def runLoop (mem_limit time_limit : ℚ) (outcomes : ℕ → TestOutcome) :
    List Testcase → ℕ → ℕ × Except String (List TestResult)
  | [], k => (k, .ok [])
  | test_case :: rest, k =>
    match outcomes k with
    | .error e => (k + 1, .error e)
    | .ok r =>
      match test_case.outp with
      | none => (k + 1, .error "KeyError")
      | some expected =>
        let _verdict :=
          _get_verdict time_limit r.timePoll mem_limit r.pmm r.rcode r.output expected
        -- line 129 is `# TODO:` — the verdict is discarded and nothing is
        -- appended to `results`
        runLoop mem_limit time_limit outcomes rest (k + 1)

/-! ## `preprocess.py` — the Toolchain Dispatcher

A `pathlib.Path` is modelled by the two components the dispatcher reads:
its stem and its suffix (directories play no role in any claim).
`str(p)` is `stem ++ suffix`.  A path built from a string returned by
`shutil.which` is stored opaquely in the stem, so its `str()` form is the
string itself; the dispatcher never takes such a path's suffix.
`shutil.which` and `subprocess.run` are external: a `Toolchain`
environment gives, for each binary name, its resolved path (or `none`),
and for each argv, the invoked process's exit code.  `run(..., check=True)`
raises `CalledProcessError` exactly when that exit code is non-zero; other
exceptions from `run` (the bare `except Exception` arms) are not
modelled — no claim involves them.  `Path.resolve()` is the identity in
this model. -/

/-- The stem/suffix view of a `pathlib.Path`. -/
structure PyPath where
  stem : String
  suffix : String
deriving DecidableEq, Repr

/-- Python `str(p)`. -/
def strPath (p : PyPath) : String := p.stem ++ p.suffix

/-- Python `Path(s)` for an opaque string `s` returned by `shutil.which`. -/
def pathOfStr (s : String) : PyPath := ⟨s, ""⟩

/-- Python `p.with_suffix(ext)`. -/
def withSuffix (p : PyPath) (ext : String) : PyPath := ⟨p.stem, ext⟩

def SUPPORTED_CPP_COMPILERS : List String := ["clang-cl", "clang", "g++"]

def SUPPORTED_C_COMPILERS : List String := ["clang-cl", "clang", "gcc"]

def JAVA_COMPILER : String := "javac"

def JAVA_VM : String := "java"

def SUPPORTED_COMPILED_LANGUAGE_EXTENSIONS : List String :=
  [".c", ".cpp", ".cxx", ".java"]

def SUPPORTED_INTERPRETED_LANGUAGE_EXTENSIONS : List String := [".py"]

def COMPILED_LANGUAGE_PLACEHOLDER : PyPath :=
  pathOfStr "COMPILED_LANGUAGE_PREPROCESS"

def _CHECK_ONLY_ONE_COMPILER : Bool := true

/-- The dispatcher's view of the host system. -/
structure Toolchain where
  /-- Python `shutil.which`. -/
  whichBin : String → Option String
  /-- Exit code of `subprocess.run` on a given argv. -/
  exitCode : List String → ℤ
  /-- Python `os.name == "nt"`. -/
  nt : Bool

/-- The compiler loop of `_compile_c_like` (lines 174–199), instrumented:
besides the result it returns the list of compiler names actually invoked
(`subprocess.run` reached), so that the "only the first resolvable
candidate is attempted" policy is a provable statement.  A name `which`
cannot resolve is skipped (`continue`); a resolved candidate is invoked
with `<compiler> <source> -o <output>`; on `CalledProcessError` the loop
breaks when `_CHECK_ONLY_ONE_COMPILER` is set, else falls through. -/
def compileLoop (env : Toolchain) (source_file executable_path : PyPath) :
    List String → Option PyPath × List String
  | [] => (none, [])
  | compiler :: rest =>
    match env.whichBin compiler with
    | none => compileLoop env source_file executable_path rest
    | some compiler_path =>
      let args := [compiler_path, strPath source_file, "-o", strPath executable_path]
      if env.exitCode args = 0 then (some executable_path, [compiler])
      else if _CHECK_ONLY_ONE_COMPILER then (none, [compiler])
      else
        let r := compileLoop env source_file executable_path rest
        (r.1, compiler :: r.2)

/-- Embedding of `_compile_c_like` (lines 162–203): the output path is the
source's stem plus `.exe` on Windows / nothing elsewhere; `resolve()` is
the identity here. -/
def _compile_c_like (env : Toolchain) (source_file : PyPath)
    (compilers : List String) : Option PyPath :=
  let executable_extension : String := if env.nt then ".exe" else ""
  (compileLoop env source_file (withSuffix source_file executable_extension) compilers).1

/-- The compilers `_compile_c_like` actually invokes. -/
def invokedCompilers (env : Toolchain) (source_file : PyPath)
    (compilers : List String) : List String :=
  let executable_extension : String := if env.nt then ".exe" else ""
  (compileLoop env source_file (withSuffix source_file executable_extension) compilers).2

/-- Embedding of `_compile_cpp` (lines 140–148). -/
def _compile_cpp (env : Toolchain) (source_file : PyPath) : Option PyPath :=
  _compile_c_like env source_file SUPPORTED_CPP_COMPILERS

/-- Embedding of `_compile_c` (lines 151–159). -/
def _compile_c (env : Toolchain) (source_file : PyPath) : Option PyPath :=
  _compile_c_like env source_file SUPPORTED_C_COMPILERS

/-- Embedding of `_compile_java` (lines 113–137): resolve `javac`, run it on the
source, return the `.class` path on success. -/
def _compile_java (env : Toolchain) (source_file : PyPath) : Option PyPath :=
  match env.whichBin JAVA_COMPILER with
  | none => none
  | some javac_path =>
    if env.exitCode [javac_path, strPath source_file] = 0 then
      some (withSuffix source_file ".class")
    else none

/-- Embedding of `_dispatch_compiler` (lines 77–95). -/
def _dispatch_compiler (env : Toolchain) (source_file : PyPath) : Option PyPath :=
  if source_file.suffix = ".c" then _compile_c env source_file
  else if source_file.suffix = ".cpp" then _compile_cpp env source_file
  else if source_file.suffix = ".cxx" then _compile_cpp env source_file
  else if source_file.suffix = ".java" then _compile_java env source_file
  else none

/-- Embedding of `_dispatch_interpreter` (lines 98–110). -/
def _dispatch_interpreter (env : Toolchain) (source_file : PyPath) : Option PyPath :=
  if source_file.suffix = ".py" then (env.whichBin "python").map pathOfStr
  else none

/-- Embedding of `preprocess` (lines 43–74): classify by extension, build
or resolve, then the `.java` special case replaces the executor by the
resolved `java` launcher (or `None` when absent).  The
`_MANIFEST_ENTRY_SETONCE` global only feeds diagnostic printing and is
omitted. -/
def preprocess (env : Toolchain) (source_file : PyPath) :
    Option PyPath × Option PyPath :=
  let extension := source_file.suffix
  let te : Option PyPath × Option PyPath :=
    if extension ∈ SUPPORTED_COMPILED_LANGUAGE_EXTENSIONS then
      (_dispatch_compiler env source_file, some COMPILED_LANGUAGE_PLACEHOLDER)
    else if extension ∈ SUPPORTED_INTERPRETED_LANGUAGE_EXTENSIONS then
      (some source_file, _dispatch_interpreter env source_file)
    else (none, none)
  if extension = ".java" then
    match env.whichBin JAVA_VM with
    | none => (te.1, none)
    | some jvm => (te.1, some (pathOfStr jvm))
  else te

/-! ## `_run` assembled (submit.py lines 93–131) -/

/-- The child argv built at lines 111–112: `[target]` when the executor
equals the compiled-language sentinel path, `[executor, target]`
otherwise; paths are rendered with `str()`. -/
def childArgv (executor target : PyPath) : List String :=
  if executor = COMPILED_LANGUAGE_PLACEHOLDER then [strPath target]
  else [strPath executor, strPath target]

/-- Embedding of `_run`, instrumented with the spawn count: the first
component counts the child processes created during the call.  The archive
is the one `_extract_test_cases` reads for the problem; an exception
escaping the extraction or the per-test loop propagates (it is only caught
in `submit`, line 66).  `executor` and `target` enter the child argv
exactly as at lines 111–112; the argv itself is consumed by the abstracted
`Popen`, hence by `outcomes`. -/
def _run (executor target : PyPath) (archive : Option (List Member))
    (memory_limit time_limit : ℚ) (outcomes : ℕ → TestOutcome) :
    ℕ × Except String (Option (List TestResult)) :=
  match _extract_test_cases archive with
  | .error e => (0, .error e)
  | .ok none => (0, .ok none)
  | .ok (some test_cases) =>
    let _args : List String := childArgv executor target
    let r := runLoop memory_limit time_limit outcomes test_cases 0
    (r.1, r.2.map some)

/-! ## Theorems -/

/-- C2: `_get_verdict` evaluates its conditions in the fixed priority
order memory > limit → MLE, else exit code ≠ 0 → RTE, else time > limit →
TLE, else output size > 500 MB → OLE, else token comparison decides
ACCEPTED vs WRONG ANSWER; in particular a non-zero exit code with memory
within limit gives RUNTIME ERROR regardless of the output text. -/
theorem C2_verdict_priority_order :
    ∀ (time_limit time_executed memory_limit memory_usage : ℚ)
      (rcode : Option ℤ) (output expected : String),
      (memory_limit < memory_usage →
        _get_verdict time_limit time_executed memory_limit memory_usage rcode
          output expected = _MLE) ∧
      (memory_usage ≤ memory_limit → rcode ≠ some 0 →
        _get_verdict time_limit time_executed memory_limit memory_usage rcode
          output expected = _RTE) ∧
      (memory_usage ≤ memory_limit → rcode = some 0 →
        time_limit < time_executed →
        _get_verdict time_limit time_executed memory_limit memory_usage rcode
          output expected = _TLE) ∧
      (memory_usage ≤ memory_limit → rcode = some 0 →
        time_executed ≤ time_limit → _OUTPUT_LIMIT < outputSize output →
        _get_verdict time_limit time_executed memory_limit memory_usage rcode
          output expected = _OLE) ∧
      (memory_usage ≤ memory_limit → rcode = some 0 →
        time_executed ≤ time_limit → outputSize output ≤ _OUTPUT_LIMIT →
        _get_verdict time_limit time_executed memory_limit memory_usage rcode
          output expected =
          if pySplit expected = pySplit output then _A else _WA) := by
  intro tl te ml mu rc out exp
  refine ⟨?_, ?_, ?_, ?_, ?_⟩
  · intro h1
    simp only [_get_verdict]
    rw [if_pos h1]
  · intro h1 h2
    simp only [_get_verdict]
    rw [if_neg (not_lt.mpr h1), if_pos h2]
  · intro h1 h2 h3
    simp only [_get_verdict]
    rw [if_neg (not_lt.mpr h1), if_neg (fun hne => hne h2), if_pos h3]
  · intro h1 h2 h3 h4
    simp only [_get_verdict]
    rw [if_neg (not_lt.mpr h1), if_neg (fun hne => hne h2),
      if_neg (not_lt.mpr h3), if_pos h4]
  · intro h1 h2 h3 h4
    simp only [_get_verdict]
    rw [if_neg (not_lt.mpr h1), if_neg (fun hne => hne h2),
      if_neg (not_lt.mpr h3), if_neg (not_lt.mpr h4)]
    by_cases h : pySplit exp = pySplit out
    · rw [if_neg (fun hne => hne h), if_pos h]
    · rw [if_pos h, if_neg h]

/-- Witness for C2 at concrete inputs: memory over limit → MLE; exit code
1 with matching output → RTE; exit 0 over time → TLE; clean run with
matching tokens → ACCEPTED. -/
theorem C2_verdict_priority_order_witness :
    _get_verdict 1 0 256 300 (some 0) "1 2 3" "1 2 3" = _MLE ∧
    _get_verdict 1 0 256 10 (some 1) "1 2 3" "1 2 3" = _RTE ∧
    _get_verdict 1 2 256 10 (some 0) "1 2 3" "1 2 3" = _TLE ∧
    _get_verdict 1 0 256 10 (some 0) "1 2 3" "1 2 3" = _A :=
  ⟨(C2_verdict_priority_order 1 0 256 300 (some 0) "1 2 3" "1 2 3").1
      (by norm_num),
   (C2_verdict_priority_order 1 0 256 10 (some 1) "1 2 3" "1 2 3").2.1
      (by norm_num) (by decide),
   (C2_verdict_priority_order 1 2 256 10 (some 0) "1 2 3" "1 2 3").2.2.1
      (by norm_num) rfl (by norm_num),
   by
    have h := (C2_verdict_priority_order 1 0 256 10 (some 0)
      "1 2 3" "1 2 3").2.2.2.2 (by norm_num) rfl (by norm_num) (by decide)
    rw [h]
    decide⟩

/-- C3: with no resource or exit-code violation, the verdict is decided by
exact equality of the whitespace-delimited token sequences of captured and
expected output: equal tokens give ACCEPTED, different tokens give WRONG
ANSWER. -/
theorem C3_token_comparison :
    ∀ (time_limit time_executed memory_limit memory_usage : ℚ)
      (output expected : String),
      memory_usage ≤ memory_limit → time_executed ≤ time_limit →
      outputSize output ≤ _OUTPUT_LIMIT →
      ((pySplit output = pySplit expected →
         _get_verdict time_limit time_executed memory_limit memory_usage
           (some 0) output expected = _A) ∧
       (pySplit output ≠ pySplit expected →
         _get_verdict time_limit time_executed memory_limit memory_usage
           (some 0) output expected = _WA)) := by
  intro tl te ml mu out exp h1 h2 h3
  constructor
  · intro heq
    simp only [_get_verdict]
    rw [if_neg (not_lt.mpr h1), if_neg (fun hne => hne rfl),
      if_neg (not_lt.mpr h2), if_neg (not_lt.mpr h3),
      if_neg (fun hne => hne heq.symm)]
  · intro hne
    simp only [_get_verdict]
    rw [if_neg (not_lt.mpr h1), if_neg (fun hk => hk rfl),
      if_neg (not_lt.mpr h2), if_neg (not_lt.mpr h3),
      if_pos (fun heq => hne heq.symm)]

/-- Witness for C3: the spec's own examples — output `"1 2 3\n"` vs
expected `"1 2 3"` and output `"1  2   3"` vs `"1 2 3"` are ACCEPTED,
output `"1 2 4"` vs expected `"1 2 3"` is WRONG ANSWER. -/
theorem C3_token_comparison_witness :
    _get_verdict 1 0 256 10 (some 0) "1 2 3\n" "1 2 3" = _A ∧
    _get_verdict 1 0 256 10 (some 0) "1  2   3" "1 2 3" = _A ∧
    _get_verdict 1 0 256 10 (some 0) "1 2 4" "1 2 3" = _WA :=
  ⟨(C3_token_comparison 1 0 256 10 "1 2 3\n" "1 2 3" (by norm_num)
      (by norm_num) (by decide)).1 (by decide),
   (C3_token_comparison 1 0 256 10 "1  2   3" "1 2 3" (by norm_num)
      (by norm_num) (by decide)).1 (by decide),
   (C3_token_comparison 1 0 256 10 "1 2 4" "1 2 3" (by norm_num)
      (by norm_num) (by decide)).2 (by decide)⟩

/-- C5 counterexample: for a C source file with no candidate compiler on
the search path, `preprocess` returns `(None, COMPILED_LANGUAGE_PLACEHOLDER)`
— the executor slot keeps the sentinel assigned at line 64 of
preprocess.py — not the `(None, None)` artifact the claim states. -/
theorem C5_counterexample_not_none_none :
    preprocess ⟨fun _ => none, fun _ => 1, false⟩ ⟨"sol", ".c"⟩
      = (none, some COMPILED_LANGUAGE_PLACEHOLDER) ∧
    preprocess ⟨fun _ => none, fun _ => 1, false⟩ ⟨"sol", ".c"⟩
      ≠ ((none, none) : Option PyPath × Option PyPath) :=
  ⟨by decide, by decide⟩

/-- C5 amended: on every dispatcher failure `preprocess` returns an
artifact with at least one `None` component — the target is `None` when a
compiled-family build fails, the executor is `None` when interpreter or
`java`-launcher resolution fails — which the caller rejects through its
`target is None or executor is None` check. -/
theorem C5_amended_failure_has_none_component :
    ∀ (env : Toolchain) (source_file : PyPath),
      (source_file.suffix ∈ SUPPORTED_COMPILED_LANGUAGE_EXTENSIONS →
        _dispatch_compiler env source_file = none →
        (preprocess env source_file).1 = none) ∧
      (source_file.suffix ∈ SUPPORTED_INTERPRETED_LANGUAGE_EXTENSIONS →
        _dispatch_interpreter env source_file = none →
        (preprocess env source_file).2 = none) ∧
      (source_file.suffix = ".java" → env.whichBin JAVA_VM = none →
        (preprocess env source_file).2 = none) := by
  intro env source_file
  refine ⟨?_, ?_, ?_⟩
  · intro hmem hdc
    by_cases hj : source_file.suffix = ".java"
    · cases hw : env.whichBin JAVA_VM <;>
        simp [preprocess, hmem, hdc, hj, hw,
          SUPPORTED_COMPILED_LANGUAGE_EXTENSIONS]
    · simp [preprocess, hmem, hdc, hj]
  · intro hmem hdi
    simp only [SUPPORTED_INTERPRETED_LANGUAGE_EXTENSIONS,
      List.mem_singleton] at hmem
    simp [preprocess, hmem, hdi, SUPPORTED_COMPILED_LANGUAGE_EXTENSIONS,
      SUPPORTED_INTERPRETED_LANGUAGE_EXTENSIONS]
  · intro hj hw
    simp [preprocess, hj, hw, SUPPORTED_COMPILED_LANGUAGE_EXTENSIONS]

/-- Witness for the amended C5: a C file with an empty search path gets a
`None` target; a Python file with an empty search path gets a `None`
executor. -/
theorem C5_amended_witness :
    (preprocess ⟨fun _ => none, fun _ => 1, false⟩ ⟨"sol", ".c"⟩).1 = none ∧
    (preprocess ⟨fun _ => none, fun _ => 1, false⟩ ⟨"sol", ".py"⟩).2 = none :=
  ⟨(C5_amended_failure_has_none_component ⟨fun _ => none, fun _ => 1, false⟩
      ⟨"sol", ".c"⟩).1 (by decide) (by decide),
   (C5_amended_failure_has_none_component ⟨fun _ => none, fun _ => 1, false⟩
      ⟨"sol", ".py"⟩).2.1 (by decide) (by decide)⟩

/-- C9: for every artifact `(target, executor)` the dispatcher produces,
the child argv of lines 111–112 is `[target]` exactly when the executor is
the compiled-language sentinel and `[executor, target]` otherwise;
non-Java compiled-family artifacts always carry the sentinel, and a Java
artifact's executor is the path `which` resolved for the `java`
launcher. -/
theorem C9_spawn_argv :
    ∀ (env : Toolchain) (source_file target executor : PyPath),
      preprocess env source_file = (some target, some executor) →
      ((executor = COMPILED_LANGUAGE_PLACEHOLDER →
         childArgv executor target = [strPath target]) ∧
       (executor ≠ COMPILED_LANGUAGE_PLACEHOLDER →
         childArgv executor target = [strPath executor, strPath target]) ∧
       (source_file.suffix ∈ SUPPORTED_COMPILED_LANGUAGE_EXTENSIONS →
         source_file.suffix ≠ ".java" →
         executor = COMPILED_LANGUAGE_PLACEHOLDER) ∧
       (source_file.suffix = ".java" →
         ∃ j, env.whichBin JAVA_VM = some j ∧ executor = pathOfStr j)) := by
  intro env source_file target executor hp
  refine ⟨?_, ?_, ?_, ?_⟩
  · intro h; simp [childArgv, h]
  · intro h; simp [childArgv, h]
  · intro hmem hj
    simp [preprocess, hmem, hj] at hp
    exact hp.2.symm
  · intro hj
    cases hw : env.whichBin JAVA_VM with
    | none => simp [preprocess, hj, hw] at hp
    | some j =>
      simp [preprocess, hj, hw] at hp
      exact ⟨j, rfl, hp.2.symm⟩

/-- Witness for C9: a Java artifact (target `Main.class`, executor the
resolved `/bin/java` launcher) spawns `[executor, target]`; a C artifact
(executor = sentinel) spawns `[target]`. -/
theorem C9_spawn_argv_witness :
    childArgv (pathOfStr "/bin/java") ⟨"Main", ".class"⟩
      = ["/bin/java", "Main.class"] ∧
    childArgv COMPILED_LANGUAGE_PLACEHOLDER ⟨"sol", ""⟩ = ["sol"] :=
  ⟨(C9_spawn_argv ⟨fun n => some ("/bin/" ++ n), fun _ => 0, false⟩
      ⟨"Main", ".java"⟩ ⟨"Main", ".class"⟩ (pathOfStr "/bin/java")
      (by decide)).2.1 (by decide),
   (C9_spawn_argv ⟨fun _ => some "/bin/cc", fun _ => 0, false⟩
      ⟨"sol", ".c"⟩ ⟨"sol", ""⟩ COMPILED_LANGUAGE_PLACEHOLDER
      (by decide)).1 rfl⟩

/-- Trace lemma for `_compile_c_like`'s loop: the compilers actually
invoked are exactly the first name `which` can resolve (none if no name
resolves), and the loop yields an executable iff that first resolvable
candidate exists and its invocation exits 0 — with
`_CHECK_ONLY_ONE_COMPILER` set, a failed invocation never falls through to
a later candidate. -/
theorem compileLoop_first_resolvable (env : Toolchain)
    (source_file executable_path : PyPath) :
    ∀ compilers : List String,
      (compileLoop env source_file executable_path compilers).2
        = (compilers.find? (fun c => (env.whichBin c).isSome)).toList ∧
      ((compileLoop env source_file executable_path compilers).1.isSome ↔
        ∃ c cp,
          compilers.find? (fun c => (env.whichBin c).isSome) = some c ∧
          env.whichBin c = some cp ∧
          env.exitCode [cp, strPath source_file, "-o",
            strPath executable_path] = 0) := by
  intro compilers
  induction compilers with
  | nil => simp [compileLoop]
  | cons compiler rest ih =>
    cases hw : env.whichBin compiler with
    | none =>
      have hfind : (rest.find? (fun c => (env.whichBin c).isSome))
          = ((compiler :: rest).find? (fun c => (env.whichBin c).isSome)) := by
        rw [List.find?_cons_of_neg]
        simp [hw]
      simp only [compileLoop, hw, ← hfind]
      exact ih
    | some cp =>
      have hfind : ((compiler :: rest).find? (fun c => (env.whichBin c).isSome))
          = some compiler := by
        rw [List.find?_cons_of_pos]
        simp [hw]
      by_cases he : env.exitCode [cp, strPath source_file, "-o",
          strPath executable_path] = 0
      · have hval : compileLoop env source_file executable_path
            (compiler :: rest) = (some executable_path, [compiler]) := by
          simp [compileLoop, hw, he]
        rw [hval, hfind]
        refine ⟨rfl, ?_⟩
        simp only [Option.isSome_some, true_iff]
        exact ⟨compiler, cp, rfl, hw, he⟩
      · have hval : compileLoop env source_file executable_path
            (compiler :: rest) = (none, [compiler]) := by
          simp [compileLoop, hw, he, _CHECK_ONLY_ONE_COMPILER]
        rw [hval, hfind]
        refine ⟨rfl, ?_, ?_⟩
        · intro h
          exact absurd h (by simp)
        · rintro ⟨c, cp', hc, hcp', he'⟩
          obtain rfl : compiler = c := by simpa using hc
          rw [hw] at hcp'
          obtain rfl : cp = cp' := Option.some.inj hcp'
          exact absurd he' he

/-- C6: for C/C++ sources the dispatcher scans the fixed priority list in
order, skipping unresolvable names; only the first resolvable candidate is
invoked, and under the default configuration a non-zero exit of that
invocation fails the build without trying any later candidate.
`_compile_c` and `_compile_cpp` instantiate the loop with the fixed
priority lists. -/
theorem C6_only_first_resolvable_invoked :
    (∀ (env : Toolchain) (source_file : PyPath) (compilers : List String),
      invokedCompilers env source_file compilers
        = (compilers.find? (fun c => (env.whichBin c).isSome)).toList ∧
      ((_compile_c_like env source_file compilers).isSome ↔
        ∃ c cp,
          compilers.find? (fun c => (env.whichBin c).isSome) = some c ∧
          env.whichBin c = some cp ∧
          env.exitCode [cp, strPath source_file, "-o",
            strPath (withSuffix source_file
              (if env.nt then ".exe" else ""))] = 0)) ∧
    (∀ (env : Toolchain) (source_file : PyPath),
      _compile_c env source_file
        = _compile_c_like env source_file SUPPORTED_C_COMPILERS ∧
      _compile_cpp env source_file
        = _compile_c_like env source_file SUPPORTED_CPP_COMPILERS) :=
  ⟨fun env source_file compilers =>
    compileLoop_first_resolvable env source_file _ compilers,
   fun _ _ => ⟨rfl, rfl⟩⟩

/-- C1: the claim says `_run` returns one result entry per test case; the
code never appends to `results` (line 129 of submit.py is a bare
`# TODO:`), so a run over an archive holding one test case — extracted
correctly, supervised without incident, output matching — finishes with an
empty result sequence (length 0, not 1), while one child process was
spawned for the one test case. -/
theorem C1_run_returns_empty_results :
    _extract_test_cases (some [⟨"1", ".in", "5\n"⟩, ⟨"1", ".out", "5\n"⟩])
      = .ok (some [⟨some "5\n", some "5\n"⟩]) ∧
    _run COMPILED_LANGUAGE_PLACEHOLDER (pathOfStr "sol")
        (some [⟨"1", ".in", "5\n"⟩, ⟨"1", ".out", "5\n"⟩]) 256 1
        (fun _ => .ok ⟨10, 0, some 0, "5\n"⟩)
      = (1, .ok (some [])) ∧
    (List.length ([] : List TestResult) = 0 ∧
      List.length [(⟨some "5\n", some "5\n"⟩ : Testcase)] = 1) :=
  ⟨rfl, rfl, rfl, rfl⟩

/-- C8: the claim says an unexpected exception while supervising one test
case is converted into a degraded per-test result and the remaining tests
still run; in the code `_run` has no per-test handler (the only handler is
in `submit`, lines 61–68, around the whole run), so on a two-test archive
whose first supervision raises, the exception propagates out of `_run` —
no result sequence at all — and only one child process was ever spawned:
the second test case never executes. -/
theorem C8_supervision_exception_aborts_run :
    _run COMPILED_LANGUAGE_PLACEHOLDER (pathOfStr "sol")
        (some [⟨"1", ".in", "a"⟩, ⟨"1", ".out", "b"⟩,
               ⟨"2", ".in", "c"⟩, ⟨"2", ".out", "d"⟩]) 256 1
        (fun k => if k = 0 then .error "psutil.AccessDenied"
                  else .ok ⟨1, 0, some 0, "b"⟩)
      = (1, .error "psutil.AccessDenied") ∧
    _extract_test_cases (some [⟨"1", ".in", "a"⟩, ⟨"1", ".out", "b"⟩,
        ⟨"2", ".in", "c"⟩, ⟨"2", ".out", "d"⟩])
      = .ok (some [⟨some "a", some "b"⟩, ⟨some "c", some "d"⟩]) :=
  ⟨rfl, rfl⟩

/-- C4 counterexample: a child that is still running when the poll loop
stops for exceeding a 1-second time limit (memory well within limit) is
terminated, and the wait after `terminate()` reports the kill signal as a
non-zero exit code (−15); `_get_verdict` tests the exit code before the
elapsed time, so the verdict is RUNTIME ERROR, not the TIME LIMIT EXCEEDED
the claim states — even though the child's output matches the expected
output. -/
theorem C4_counterexample_timeout_yields_rte :
    judgeTest 256 1
        ⟨true, some 10, [⟨none, some 10, 2, 0⟩], 0, none, some (-15)⟩
        "5\n" "5\n" = some _RTE ∧
    _RTE ≠ _TLE :=
  ⟨rfl, by decide⟩

/-- C4 amended: when the supervision loop ends with the time limit
exceeded and memory within limit, the verdict depends on how the child
died: if it was still running (`poll()` returned `None`) — the claim's
sleeping-child scenario — teardown terminates it and the verdict is
RUNTIME ERROR, whether the post-`terminate()` wait returns a non-zero code
or times out leaving no code at all; the same holds if the child had
already exited non-zero.  TIME LIMIT EXCEEDED is produced only when the
child exited on its own with code 0. -/
theorem C4_amended_timeout_verdicts :
    ∀ (mem_limit time_limit : ℚ) (env : ProcEnv) (r0 pmm timePoll : ℚ)
      (output expected : String),
      env.spawnLookup = true →
      env.initRssMB = some r0 →
      superviseLoop mem_limit time_limit env.obs r0 0
        = some (.normal pmm timePoll) →
      pmm ≤ mem_limit → time_limit < timePoll →
      ((∀ c : ℤ, env.afterPoll = none → env.termWait = some c → c ≠ 0 →
          judgeTest mem_limit time_limit env output expected = some _RTE) ∧
       (env.afterPoll = none → env.termWait = none →
          judgeTest mem_limit time_limit env output expected = some _RTE) ∧
       (∀ c : ℤ, env.afterPoll = some c → c ≠ 0 →
          judgeTest mem_limit time_limit env output expected = some _RTE) ∧
       (env.afterPoll = some 0 →
          judgeTest mem_limit time_limit env output expected
            = some _TLE)) := by
  intro ml tl env r0 pmm timePoll out exp hs hi hloop hm ht
  refine ⟨?_, ?_, ?_, ?_⟩
  · intro c hap htw hc
    simp [judgeTest, _create_process, _get_verdict, hs, hi, hloop, hap,
      htw, not_lt.mpr hm, hc]
  · intro hap htw
    simp [judgeTest, _create_process, _get_verdict, hs, hi, hloop, hap,
      htw, not_lt.mpr hm]
  · intro c hap hc
    simp [judgeTest, _create_process, _get_verdict, hs, hi, hloop, hap,
      not_lt.mpr hm, hc]
  · intro hap
    simp [judgeTest, _create_process, _get_verdict, hs, hi, hloop, hap,
      not_lt.mpr hm, ht]

/-- Witness for the amended C4: the sleeping child of the counterexample
environment (terminated after overrunning the 1-second limit, wait
reporting −15) gets RUNTIME ERROR. -/
theorem C4_amended_timeout_verdicts_witness :
    judgeTest 256 1
        ⟨true, some 10, [⟨none, some 10, 2, 0⟩], 0, none, some (-15)⟩
        "ok" "ok" = some _RTE :=
  (C4_amended_timeout_verdicts 256 1
      ⟨true, some 10, [⟨none, some 10, 2, 0⟩], 0, none, some (-15)⟩
      10 10 2 "ok" "ok" rfl rfl (by decide) (by norm_num) (by norm_num)).1
    (-15) rfl rfl (by norm_num)

/-- C10 counterexample: an existing archive whose two members are
`5.in` / `5.out` has M = 2 and so a pre-sized sequence of
⌊M/2⌋ = 1 entries, but member ordinal 5 is bucketed at index 4 — an
`IndexError` escapes `_extract_test_cases` instead of a 1-entry sequence
being returned. -/
theorem C10_counterexample_out_of_range_ordinal :
    _extract_test_cases (some [⟨"5", ".in", "x"⟩, ⟨"5", ".out", "y"⟩])
      = .error "IndexError" :=
  rfl

/-- Lemma: `pyListSet` at Python index `n - 1` succeeds and preserves the list
length whenever the ordinal `n` lies in `1..len`. -/
theorem pyListSet_ordinal_in_range {α : Type} (l : List α) (n : ℤ)
    (f : α → α) (h1 : 1 ≤ n) (h2 : n ≤ l.length) :
    ∃ l', pyListSet l (n - 1) f = some l' ∧ l'.length = l.length := by
  have h0 : ¬ (n - 1 < 0) := by omega
  have hlt : (n - 1).toNat < l.length := by omega
  refine ⟨l.set (n - 1).toNat (f (l.get ⟨(n - 1).toNat, hlt⟩)), ?_, by simp⟩
  simp only [pyListSet]
  rw [if_neg h0, if_neg h0, List.get?_eq_get hlt]

/-- Under in-range ordinals for every `.in`/`.out` member, the member loop
of `_extract_test_cases` raises nothing and preserves the pre-sized
length. -/
theorem extractLoop_ok :
    ∀ (ms : List Member) (acc : List Testcase),
      (∀ m ∈ ms,
        (m.suffix = _TESTCASE_INPUT ∨ m.suffix = _TESTCASE_OUTPUT) →
        ∃ n : ℤ, pyInt m.stem = some n ∧ 1 ≤ n ∧ n ≤ acc.length) →
      ∃ l, extractLoop ms acc = .ok l ∧ l.length = acc.length := by
  intro ms
  induction ms with
  | nil => exact fun acc _ => ⟨acc, rfl, rfl⟩
  | cons m rest ih =>
    intro acc h
    by_cases hv : m.suffix ≠ _TESTCASE_INPUT ∧ m.suffix ≠ _TESTCASE_OUTPUT
    · rw [show extractLoop (m :: rest) acc = extractLoop rest acc from by
        simp [extractLoop, hv]]
      exact ih acc fun m' hm' hval => h m' (List.mem_cons_of_mem _ hm') hval
    · have hvalid : m.suffix = _TESTCASE_INPUT ∨ m.suffix = _TESTCASE_OUTPUT := by
        by_contra hcon
        push_neg at hcon
        exact hv hcon
      obtain ⟨n, hpi, h1, h2⟩ := h m (List.mem_cons_self m rest) hvalid
      obtain ⟨acc', hset, hlen⟩ :=
        pyListSet_ordinal_in_range acc n (fun tc => setTC tc m.suffix m.text) h1 h2
      rw [show extractLoop (m :: rest) acc = extractLoop rest acc' from by
        simp [extractLoop, hv, hpi, hset]]
      obtain ⟨l, hl, hll⟩ := ih acc' fun m' hm' hval => by
        obtain ⟨n', a, b, c⟩ := h m' (List.mem_cons_of_mem _ hm') hval
        exact ⟨n', a, b, by rw [hlen]; exact c⟩
      exact ⟨l, hl, by rw [hll, hlen]⟩

/-- Members whose extension is neither `.in` nor `.out` contribute nothing
to the member loop: the loop over the full member list equals the loop
over only the `.in`/`.out` members. -/
theorem extractLoop_ignores_invalid :
    ∀ (ms : List Member) (acc : List Testcase),
      extractLoop ms acc
        = extractLoop (ms.filter (fun m =>
            m.suffix == _TESTCASE_INPUT || m.suffix == _TESTCASE_OUTPUT)) acc := by
  intro ms
  induction ms with
  | nil => intro _; rfl
  | cons m rest ih =>
    intro acc
    by_cases hv : m.suffix ≠ _TESTCASE_INPUT ∧ m.suffix ≠ _TESTCASE_OUTPUT
    · have hf : (m.suffix == _TESTCASE_INPUT
          || m.suffix == _TESTCASE_OUTPUT) = false := by
        simp [hv.1, hv.2]
      simp [extractLoop, hv, List.filter_cons, hf, ih]
    · have hf : (m.suffix == _TESTCASE_INPUT
          || m.suffix == _TESTCASE_OUTPUT) = true := by
        rcases not_and_or.mp hv with h | h
        · simp [not_not.mp h]
        · simp [not_not.mp h]
      rw [show (m :: rest).filter (fun m => m.suffix == _TESTCASE_INPUT
          || m.suffix == _TESTCASE_OUTPUT)
          = m :: rest.filter (fun m => m.suffix == _TESTCASE_INPUT
            || m.suffix == _TESTCASE_OUTPUT) from by
        simp [List.filter_cons, hf]]
      cases hpi : pyInt m.stem with
      | none =>
        rw [show extractLoop (m :: rest) acc = .error "ValueError" from by
            simp [extractLoop, hv, hpi],
          show extractLoop (m :: rest.filter (fun m =>
              m.suffix == _TESTCASE_INPUT || m.suffix == _TESTCASE_OUTPUT))
              acc = .error "ValueError" from by
            simp [extractLoop, hv, hpi]]
      | some n =>
        cases hset : pyListSet acc (n - 1)
            (fun tc => setTC tc m.suffix m.text) with
        | none =>
          rw [show extractLoop (m :: rest) acc = .error "IndexError" from by
              simp [extractLoop, hv, hpi, hset],
            show extractLoop (m :: rest.filter (fun m =>
                m.suffix == _TESTCASE_INPUT || m.suffix == _TESTCASE_OUTPUT))
                acc = .error "IndexError" from by
              simp [extractLoop, hv, hpi, hset]]
        | some acc' =>
          rw [show extractLoop (m :: rest) acc = extractLoop rest acc' from by
              simp [extractLoop, hv, hpi, hset],
            show extractLoop (m :: rest.filter (fun m =>
                m.suffix == _TESTCASE_INPUT || m.suffix == _TESTCASE_OUTPUT))
                acc = extractLoop (rest.filter (fun m =>
                m.suffix == _TESTCASE_INPUT || m.suffix == _TESTCASE_OUTPUT))
                acc' from by
              simp [extractLoop, hv, hpi, hset]]
          exact ih acc'

/-- C10 amended: for every existing archive whose `.in`/`.out` members all
carry numeric stems with ordinals in `1..⌊M/2⌋`, `_extract_test_cases`
returns exactly ⌊M/2⌋ entries (M counts every member, junk included); a
member with any other extension contributes no content to any entry, so
junk members inflate the entry count and leave trailing entries with no
input or expected-output text.  Ordinals outside that range are not
covered by this theorem: the counterexample's `5.in`/`5.out` archive
raises `IndexError`, while ordinal `0` silently wraps to the last entry
through Python's negative indexing (modelled in `pyListSet`). -/
theorem C10_amended_extract_length :
    ∀ namelist : List Member,
      (∀ m ∈ namelist,
        (m.suffix = _TESTCASE_INPUT ∨ m.suffix = _TESTCASE_OUTPUT) →
        ∃ n : ℤ, pyInt m.stem = some n ∧ 1 ≤ n ∧
          n ≤ (namelist.length / 2 : ℕ)) →
      ∃ l, _extract_test_cases (some namelist) = .ok (some l) ∧
        l.length = namelist.length / 2 ∧
        extractLoop namelist
            (List.replicate (namelist.length / 2) ⟨none, none⟩)
          = extractLoop (namelist.filter (fun m =>
              m.suffix == _TESTCASE_INPUT || m.suffix == _TESTCASE_OUTPUT))
            (List.replicate (namelist.length / 2) ⟨none, none⟩) := by
  intro namelist h
  obtain ⟨l, hl, hlen⟩ := extractLoop_ok namelist
    (List.replicate (namelist.length / 2) ⟨none, none⟩)
    (fun m hm hval => by
      obtain ⟨n, a, b, c⟩ := h m hm hval
      exact ⟨n, a, b, by simpa using c⟩)
  refine ⟨l, ?_, ?_, extractLoop_ignores_invalid namelist _⟩
  · simp only [_extract_test_cases]
    rw [hl]
    rfl
  · simpa using hlen

/-- Witness for the amended C10: an archive `1.in, 1.out, readme.txt,
notes.md` (M = 4, two junk members) yields exactly 2 entries, the second
carrying no input or expected-output text. -/
theorem C10_amended_extract_length_witness :
    (∃ l, _extract_test_cases (some [⟨"1", ".in", "i"⟩, ⟨"1", ".out", "o"⟩,
        ⟨"readme", ".txt", "r"⟩, ⟨"notes", ".md", "n"⟩]) = .ok (some l) ∧
      l.length = 2) ∧
    _extract_test_cases (some [⟨"1", ".in", "i"⟩, ⟨"1", ".out", "o"⟩,
        ⟨"readme", ".txt", "r"⟩, ⟨"notes", ".md", "n"⟩])
      = .ok (some [⟨some "i", some "o"⟩, ⟨none, none⟩]) := by
  constructor
  · obtain ⟨l, hl, hlen, _⟩ := C10_amended_extract_length
      [⟨"1", ".in", "i"⟩, ⟨"1", ".out", "o"⟩,
        ⟨"readme", ".txt", "r"⟩, ⟨"notes", ".md", "n"⟩]
      (by
        intro m hm hval
        fin_cases hm
        · exact ⟨1, by decide, by norm_num, by decide⟩
        · exact ⟨1, by decide, by norm_num, by decide⟩
        · rcases hval with h | h <;> exact absurd h (by decide)
        · rcases hval with h | h <;> exact absurd h (by decide))
    exact ⟨l, hl, by simpa using hlen⟩
  · rfl

/-- C7: when the problem's archive does not exist, `_extract_test_cases`
returns the failure value (`None`) and `_run` returns it having spawned no
child process and produced no partial result sequence. -/
theorem C7_missing_archive_aborts :
    (∀ (executor target : PyPath) (memory_limit time_limit : ℚ)
       (outcomes : ℕ → TestOutcome),
       _run executor target none memory_limit time_limit outcomes
         = (0, .ok none)) ∧
    _extract_test_cases none = .ok none := by
  exact ⟨fun _ _ _ _ _ => rfl, rfl⟩
